import Mathlib

/-!
Verification of the Navigation-Store Bridge
(`src/modules/router-store/src/router_store_module.ts`).

The TypeScript module connects an Angular `Router` with an ngrx `Store`.
We embed the module's class `StoreRouterConnectingModule` shallowly:

* each private method becomes a Lean function on an explicit `Bridge`
  record holding the class fields (`routerState`, `storeState`,
  `lastRoutesRecognized` and the two reentrancy guard booleans);
* JavaScript `undefined` on the fields that start out unassigned is
  `Option`; reading a property of `undefined` raises a `TypeError`,
  which we surface as an explicit exception value;
* the external `Store` is not under `src/`; per the spec (section 2 and
  section 5) it synchronously reduces the dispatched action and
  synchronously notifies subscribers, the Bridge's own store listener
  included, and the reserved slot `routerReducer` is updated by the
  repository's `routerReducer` function (which is in the source);
* the surrounding system (router events, hook invocations, host-driven
  store emissions, url changes) is an environment trace consumed by a
  `step`/`run` small-step semantics whose outputs are the dispatched
  actions and the `navigateByUrl` requests.
-/

abbrev Url := String

/-- A `RouterStateSnapshot`: a url plus an opaque engine-internal tree
(the Bridge only ever compares these structurally). -/
structure RouterStateSnapshot where
  url : Url
  tree : Nat
deriving DecidableEq, Repr

/-- A serializer `RouterStateSerializer<RouterStateSnapshot>`: in the
source the pluggable serializer is instantiated at the snapshot type, so
`serialize` maps snapshots to snapshots. -/
abbrev Serializer := RouterStateSnapshot → RouterStateSnapshot

/-- Modelled from the spec: `DefaultRouterStateSerializer` lives in
`./serializer`, which is not under `src/`.  Section 4.1.4 of the spec:
"the identity/shallow-copy projection — extracts URL and the full tree
structure from a NavigationSnapshot unmodified". -/
def DefaultRouterStateSerializer : Serializer := fun s => s

/-- The Angular `RoutesRecognized` event as consumed by the module. -/
structure RoutesRecognized where
  id : Nat
  url : Url
  urlAfterRedirects : Url
  state : RouterStateSnapshot
deriving DecidableEq, Repr

/-- The Angular `NavigationCancel` event (fields the module touches). -/
structure NavigationCancel where
  id : Nat
  url : Url
  reason : String
deriving DecidableEq, Repr

/-- The Angular `NavigationError` event (fields the module touches). -/
structure NavigationError where
  id : Nat
  url : Url
  error : String
deriving DecidableEq, Repr

/-- `ROUTER_NAVIGATION` action type constant (source line 18). -/
def ROUTER_NAVIGATION : String := "ROUTER_NAVIGATION"

/-- `ROUTER_CANCEL` action type constant (source line 39). -/
def ROUTER_CANCEL : String := "ROUTER_CANCEL"

/-- `ROUTER_ERROR` action type constant.  Source line 61 reads
`export const ROUTER_ERROR = 'ROUTE_ERROR';` — the string value differs
from the constant's name. -/
def ROUTER_ERROR : String := "ROUTE_ERROR"

/-- The `event` object built inline by `dispatchRouterNavigation`:
`{id, url, urlAfterRedirects, state}` cast to `RoutesRecognized`. -/
structure NavPayloadEvent where
  id : Nat
  url : Url
  urlAfterRedirects : Url
  state : RouterStateSnapshot
deriving DecidableEq, Repr

/-- The reserved store slot `{state, navigationId}`
(`RouterReducerState`).  The `state` field is `Option` because
`routerReducer` stores `payload.routerState` there, which for cancel and
error actions is `this.routerState` and may still be `undefined`;
`navigateIfNeeded` accordingly tests its truthiness. -/
structure RouterSlot where
  state : Option RouterStateSnapshot
  navigationId : Nat
deriving DecidableEq, Repr

/-- The full store state observed by the Bridge: the reserved
`routerReducer` slot (possibly absent) plus the host application's own
state, abstracted to a number. -/
structure StoreState where
  routerReducer : Option RouterSlot
  rest : Nat
deriving DecidableEq, Repr

/-- The three dispatched actions (`RouterAction<T>` with
`T = RouterStateSnapshot`), each carrying exactly the payload the
source builds:
* `navigation`: `{routerState, event}` from `dispatchRouterNavigation`;
* `cancel`/`error`: `{routerState, storeState, event}` from
  `dispatchRouterCancel`/`dispatchRouterError`, where `routerState` is
  the field `this.routerState` (possibly still `undefined`) and
  `storeState` is `this.storeState` (possibly still `undefined`). -/
inductive RouterAction where
  | navigation (routerState : RouterStateSnapshot) (event : NavPayloadEvent)
  | cancel (routerState : Option RouterStateSnapshot)
      (storeState : Option StoreState) (event : NavigationCancel)
  | error (routerState : Option RouterStateSnapshot)
      (storeState : Option StoreState) (event : NavigationError)
deriving DecidableEq, Repr

/-- The `type` string of the `{type, payload}` object passed to
`store.dispatch` by `dispatchRouterAction` for each of the three
call sites. -/
def actionType : RouterAction → String
  | .navigation _ _ => ROUTER_NAVIGATION
  | .cancel _ _ _ => ROUTER_CANCEL
  | .error _ _ _ => ROUTER_ERROR

/-- `routerReducer` (source lines 93–108) on the three router actions.
The `default` branch of the source's `switch` returns the incoming state
unchanged and is only reachable for non-router actions, which are not
values of `RouterAction`; host-driven updates are instead modelled as
whole-state emissions in the environment trace. -/
def routerReducer (_state : Option RouterSlot) (a : RouterAction) : RouterSlot :=
  match a with
  | .navigation rs ev => { state := some rs, navigationId := ev.id }
  | .cancel rs _ ev => { state := rs, navigationId := ev.id }
  | .error rs _ ev => { state := rs, navigationId := ev.id }

/-- Modelled from the spec: the store's root reducer composition is not
under `src/`.  Spec section 3: the reserved slot is "updated only in
response to BridgeAction variants; all other store updates leave it
untouched by definition of the store's own reducer composition"; the
module's usage doc mounts `routerReducer` under the key
`routerReducer`.  So a bridge-dispatched action updates the slot through
`routerReducer` and leaves the host's state untouched. -/
def storeReduce (s : StoreState) (a : RouterAction) : StoreState :=
  { routerReducer := some (routerReducer s.routerReducer a), rest := s.rest }

/-- Exceptions that can escape a Bridge callback: a JavaScript
`TypeError` from reading a property of `undefined`, or an exception
thrown by another store subscriber during `store.dispatch`. -/
inductive Exn where
  | typeError
  | subscriberError
deriving DecidableEq, Repr

/-- The mutable fields of `StoreRouterConnectingModule`.  `routerState`,
`storeState` and `lastRoutesRecognized` are declared without
initializers in the source, hence `Option` (`none` = `undefined`); the
two guards are initialized to `false`. -/
structure Bridge where
  routerState : Option RouterStateSnapshot
  storeState : Option StoreState
  lastRoutesRecognized : Option RoutesRecognized
  dispatchTriggeredByRouter : Bool
  navigationTriggeredByDispatch : Bool
deriving DecidableEq, Repr

/-- The Bridge's fields right after field initialization in the
constructor, before the store subscription delivers anything. -/
def initialBridge : Bridge :=
  { routerState := none, storeState := none, lastRoutesRecognized := none,
    dispatchTriggeredByRouter := false, navigationTriggeredByDispatch := false }

/-- `shouldDispatchRouterNavigation` (source lines 193–196):
`if (!this.storeState['routerReducer']) return true;
 return !this.navigationTriggeredByDispatch;`
Reading `['routerReducer']` on an unassigned `this.storeState` throws a
`TypeError`. -/
def shouldDispatchRouterNavigation (b : Bridge) : Except Exn Bool :=
  match b.storeState with
  | none => .error .typeError
  | some s =>
    if s.routerReducer.isNone then .ok true
    else .ok (!b.navigationTriggeredByDispatch)

/-- Result of a Bridge callback that can request navigations:
the updated fields, the urls passed to `router.navigateByUrl`, and a
possibly escaping exception. -/
structure BridgeOut where
  bridge : Bridge
  navs : List Url
  exn : Option Exn
deriving DecidableEq, Repr

/-- `navigateIfNeeded` (source lines 198–211).  `routerUrl` is the
value of `this.router.url`.  The slot-absence checks come first, then
the `dispatchTriggeredByRouter` early return, then the url comparison;
on a difference the guard `navigationTriggeredByDispatch` is set before
`router.navigateByUrl` is invoked. -/
def navigateIfNeeded (b : Bridge) (routerUrl : Url) : BridgeOut :=
  match b.storeState with
  | none => { bridge := b, navs := [], exn := some .typeError }
  | some s =>
    match s.routerReducer with
    | none => { bridge := b, navs := [], exn := none }
    | some slot =>
      match slot.state with
      | none => { bridge := b, navs := [], exn := none }
      | some st =>
        if b.dispatchTriggeredByRouter then
          { bridge := b, navs := [], exn := none }
        else if routerUrl ≠ st.url then
          { bridge := { b with navigationTriggeredByDispatch := true },
            navs := [st.url], exn := none }
        else
          { bridge := b, navs := [], exn := none }

/-- The store subscription callback installed by
`setUpStoreStateListener` (source lines 186–191):
`s => { this.storeState = s; this.navigateIfNeeded(); }`. -/
def storeListener (b : Bridge) (routerUrl : Url) (s : StoreState) : BridgeOut :=
  navigateIfNeeded { b with storeState := some s } routerUrl

/-- The system configuration seen by the Bridge: its own fields, the
router's current url (`this.router.url`) and the store's current state
(the store always holds a state; the Bridge's `storeState` copy lags
behind it until the subscription delivers). -/
structure Config where
  bridge : Bridge
  routerUrl : Url
  storeSt : StoreState
deriving DecidableEq, Repr

/-- Result of a Bridge entry point that can dispatch store actions:
the updated system configuration, the actions handed to
`store.dispatch`, the urls handed to `router.navigateByUrl`, and a
possibly escaping exception. -/
structure StepOut where
  cfg : Config
  dispatched : List RouterAction
  navs : List Url
  exn : Option Exn
deriving DecidableEq, Repr

/-- `dispatchRouterAction` (source lines 253–261):
```
this.dispatchTriggeredByRouter = true;
try { this.store.dispatch({type, payload}); }
finally {
  this.dispatchTriggeredByRouter = false;
  this.navigationTriggeredByDispatch = false;
}
```
The store (modelled from the spec, see `storeReduce`) reduces the action
and synchronously notifies its subscribers; `subThrows` says whether
some other subscriber throws, in which case the exception reaches the
Bridge before its own listener observes the new state, propagates
through the `try`, and the `finally` still clears both guards. -/
def dispatchRouterAction (subThrows : Bool) (c : Config) (a : RouterAction) : StepOut :=
  let b1 := { c.bridge with dispatchTriggeredByRouter := true }
  let snew := storeReduce c.storeSt a
  if subThrows then
    let b2 := { b1 with dispatchTriggeredByRouter := false,
                        navigationTriggeredByDispatch := false }
    { cfg := { c with storeSt := snew, bridge := b2 },
      dispatched := [a], navs := [], exn := some .subscriberError }
  else
    let r := storeListener b1 c.routerUrl snew
    let b2 := { r.bridge with dispatchTriggeredByRouter := false,
                              navigationTriggeredByDispatch := false }
    { cfg := { c with storeSt := snew, bridge := b2 },
      dispatched := [a], navs := r.navs, exn := r.exn }

/-- The hook installed by `setUpBeforePreactivationHook` (source lines
175–184): serialize the incoming snapshot into `this.routerState`, then
dispatch a `ROUTER_NAVIGATION` action when
`shouldDispatchRouterNavigation()` says so (building the payload as in
`dispatchRouterNavigation`, source lines 225–235, which also reads
`this.lastRoutesRecognized` — a `TypeError` if that is still
`undefined`).  The hook then returns `of(true)`, always letting the
navigation proceed. -/
def beforePreactivation (f : Serializer) (subThrows : Bool) (c : Config)
    (snapshot : RouterStateSnapshot) : StepOut :=
  let b := { c.bridge with routerState := some (f snapshot) }
  let c1 := { c with bridge := b }
  match shouldDispatchRouterNavigation b with
  | .error e => { cfg := c1, dispatched := [], navs := [], exn := some e }
  | .ok false => { cfg := c1, dispatched := [], navs := [], exn := none }
  | .ok true =>
    match b.lastRoutesRecognized with
    | none => { cfg := c1, dispatched := [], navs := [], exn := some .typeError }
    | some lrr =>
      dispatchRouterAction subThrows c1
        (.navigation (f snapshot)
          { id := lrr.id, url := lrr.url,
            urlAfterRedirects := lrr.urlAfterRedirects,
            state := f (f snapshot) })

/-- A router lifecycle event as classified by the subscription of
`setUpStateRollbackEvents` (source lines 213–223); `other` covers every
event the `instanceof` chain ignores. -/
inductive RouterEvent where
  | recognized (e : RoutesRecognized)
  | cancel (e : NavigationCancel)
  | error (e : NavigationError)
  | other
deriving DecidableEq, Repr

/-- The `router.events` subscription callback of
`setUpStateRollbackEvents`: cache `RoutesRecognized`, dispatch on
`NavigationCancel` via `dispatchRouterCancel` (source lines 237–243)
and on `NavigationError` via `dispatchRouterError` (source lines
245–251), both with payload
`{routerState: this.routerState, storeState: this.storeState, event}`. -/
def routerEventsListener (subThrows : Bool) (c : Config) (e : RouterEvent) : StepOut :=
  match e with
  | .recognized r =>
    { cfg := { c with bridge := { c.bridge with lastRoutesRecognized := some r } },
      dispatched := [], navs := [], exn := none }
  | .cancel ev =>
    dispatchRouterAction subThrows c
      (.cancel c.bridge.routerState c.bridge.storeState ev)
  | .error ev =>
    dispatchRouterAction subThrows c
      (.error c.bridge.routerState c.bridge.storeState ev)
  | .other => { cfg := c, dispatched := [], navs := [], exn := none }

/-- One environment stimulus delivered to the Bridge:
* `storeEmit s`: the store notifies subscribers of a state `s` produced
  by a host-driven dispatch (replay, undo, restoration, ...);
* `routerEvent e t`: the router emits a lifecycle event (`t` = some
  other store subscriber throws during any resulting dispatch);
* `hook snap t`: the router invokes the pre-activation hook with the
  not-yet-committed snapshot;
* `urlUpdate u`: the router commits a navigation, updating
  `router.url`. -/
inductive EnvStep where
  | storeEmit (s : StoreState)
  | routerEvent (e : RouterEvent) (subThrows : Bool)
  | hook (snapshot : RouterStateSnapshot) (subThrows : Bool)
  | urlUpdate (u : Url)
deriving DecidableEq, Repr

/-- Dispatch one environment stimulus to the corresponding Bridge
callback. -/
def step (f : Serializer) (c : Config) : EnvStep → StepOut
  | .storeEmit s =>
    let r := storeListener c.bridge c.routerUrl s
    { cfg := { c with bridge := r.bridge, storeSt := s },
      dispatched := [], navs := r.navs, exn := r.exn }
  | .routerEvent e t => routerEventsListener t c e
  | .hook snap t => beforePreactivation f t c snap
  | .urlUpdate u =>
    { cfg := { c with routerUrl := u }, dispatched := [], navs := [], exn := none }

/-- Run an environment trace, concatenating outputs; an escaping
exception aborts the run. -/
def run (f : Serializer) (c : Config) : List EnvStep → StepOut
  | [] => { cfg := c, dispatched := [], navs := [], exn := none }
  | st :: rest =>
    let r := step f c st
    match r.exn with
    | some e => { r with exn := some e }
    | none =>
      let r2 := run f r.cfg rest
      { cfg := r2.cfg, dispatched := r.dispatched ++ r2.dispatched,
        navs := r.navs ++ r2.navs, exn := r2.exn }

/-- Construction of the module with router url `u` and store state
`s0`: the ngrx store is a `BehaviorSubject`-backed observable, so the
subscription made in the constructor synchronously delivers the current
state `s0` to the Bridge's listener. -/
def initConfig (u : Url) (s0 : StoreState) : StepOut :=
  let r := storeListener initialBridge u s0
  { cfg := { bridge := r.bridge, routerUrl := u, storeSt := s0 },
    dispatched := [], navs := r.navs, exn := r.exn }

/-- Spec-side restatement of the store-state listener, following
section 4.1.2 word for word: record the state; do nothing when the
reserved slot or its `state` field is absent; do nothing when the
"dispatch triggered by router" guard is set; otherwise, when the slot's
url differs from the router's current url, set the "navigation
triggered by dispatch" guard and request navigation to the slot's url. -/
def storeListenerSpec (b : Bridge) (routerUrl : Url) (s : StoreState) : BridgeOut :=
  let b1 := { b with storeState := some s }
  match s.routerReducer with
  | none => { bridge := b1, navs := [], exn := none }
  | some slot =>
    match slot.state with
    | none => { bridge := b1, navs := [], exn := none }
    | some st =>
      if b.dispatchTriggeredByRouter = false ∧ routerUrl ≠ st.url then
        { bridge := { b1 with navigationTriggeredByDispatch := true },
          navs := [st.url], exn := none }
      else { bridge := b1, navs := [], exn := none }

/-- The `payload.routerState` field of a commit action. -/
def navRouterState : RouterAction → Option RouterStateSnapshot
  | .navigation rs _ => some rs
  | _ => none

/-- The `payload.event.state` field of a commit action. -/
def navEventState : RouterAction → Option RouterStateSnapshot
  | .navigation _ ev => some ev.state
  | _ => none

/-- The `payload.storeState` field of a cancel or error action. -/
def actionStoreState : RouterAction → Option (Option StoreState)
  | .cancel _ ss _ => some ss
  | .error _ ss _ => some ss
  | .navigation _ _ => none

/-- Is this action a commit (`ROUTER_NAVIGATION`) for navigation id
`n`? -/
def isCommitFor (n : Nat) : RouterAction → Bool
  | .navigation _ ev => ev.id = n
  | _ => false

/-- Is this action a terminal action (cancel or error) for navigation
id `n`? -/
def isTerminalFor (n : Nat) : RouterAction → Bool
  | .cancel _ _ ev => ev.id = n
  | .error _ _ ev => ev.id = n
  | _ => false

/-- Does this environment stimulus deliver a terminal lifecycle event
(`NavigationCancel`/`NavigationError`) with id `n`? -/
def envIsTerminalFor (n : Nat) : EnvStep → Bool
  | .routerEvent (.cancel ev) _ => ev.id = n
  | .routerEvent (.error ev) _ => ev.id = n
  | _ => false

/-- Fixture: snapshot for url `/a`. -/
def cexSnapA : RouterStateSnapshot := { url := "/a", tree := 0 }

/-- Fixture: snapshot for url `/b`. -/
def cexSnapB : RouterStateSnapshot := { url := "/b", tree := 0 }

/-- Fixture: snapshot for url `/c`. -/
def cexSnapC : RouterStateSnapshot := { url := "/c", tree := 0 }

/-- Fixture: store state whose reserved slot records `/a` with
navigation id 1, next to some host state. -/
def cexStateA : StoreState := { routerReducer := some { state := some cexSnapA, navigationId := 1 }, rest := 7 }

/-- Fixture: store state whose reserved slot records `/b` with
navigation id 1. -/
def cexStateB : StoreState := { routerReducer := some { state := some cexSnapB, navigationId := 1 }, rest := 0 }

/-- Fixture: a host-driven store state without the reserved slot (e.g.
state restoration to a snapshot from before any navigation). -/
def cexStateNoSlot : StoreState := { routerReducer := none, rest := 1 }

/-- Fixture: store state the cancel/error payload ends up carrying in
the guard-cancellation scenario: the slot already rewritten by the
commit for navigation id 2 targeting `/c`. -/
def cexStateAfterCommit : StoreState := { routerReducer := some { state := some cexSnapC, navigationId := 2 }, rest := 7 }

/-- Fixture: spec Scenario C — the engine recognizes navigation id 2
targeting `/c`, the pre-activation hook runs, then a guard cancels. -/
def cexTraceCancel : List EnvStep :=
  [.routerEvent (.recognized { id := 2, url := "/c", urlAfterRedirects := "/c", state := cexSnapC }) false,
   .hook cexSnapC false,
   .routerEvent (.cancel { id := 2, url := "/c", reason := "guard" }) false]

/-- Fixture: the configuration reached from construction over store
state `cexStateA` with the router at `/a`. -/
def cexCfgA : Config := (initConfig "/a" cexStateA).cfg

/-- Fixture: configuration whose pre-activation for `/b` was caused by
the Bridge's own `navigateByUrl("/b")`: construction over `cexStateB`
(slot url `/b`, router at `/a`) makes the listener request `/b` and set
the "navigation triggered by dispatch" guard; a host-driven emission
then restores a state without the reserved slot; the router recognizes
the requested navigation (id 2, `/b`). -/
def cexCfgC1 : Config :=
  (run DefaultRouterStateSerializer (initConfig "/a" cexStateB).cfg
    [.storeEmit cexStateNoSlot,
     .routerEvent (.recognized { id := 2, url := "/b", urlAfterRedirects := "/b", state := cexSnapB }) false]).cfg

/-- Fixture: a deliberately non-idempotent serializer, to separate
single from double serialization. -/
def bumpSerializer : Serializer := fun s => { url := s.url, tree := s.tree + 1 }

/-- Fixture: the recognition event for navigation id 2 targeting
`/c`. -/
def cexRecognized2 : RoutesRecognized :=
  { id := 2, url := "/c", urlAfterRedirects := "/c", state := cexSnapC }

/-- Fixture: Bridge fields with the slot-less store state observed and
`cexRecognized2` cached, with the "navigation triggered by dispatch"
guard deliberately set. -/
def cexBridgeNoSlot : Bridge :=
  { routerState := none, storeState := some cexStateNoSlot,
    lastRoutesRecognized := some cexRecognized2,
    dispatchTriggeredByRouter := false, navigationTriggeredByDispatch := true }

/-- Fixture: configuration around `cexBridgeNoSlot`. -/
def cexCfgNoSlot : Config :=
  { bridge := cexBridgeNoSlot, routerUrl := "/a", storeSt := cexStateNoSlot }

/-- Fixture: Bridge fields with `cexStateA` observed and
`cexRecognized2` cached, both guards clear. -/
def cexBridgeA : Bridge :=
  { routerState := none, storeState := some cexStateA,
    lastRoutesRecognized := some cexRecognized2,
    dispatchTriggeredByRouter := false, navigationTriggeredByDispatch := false }

/-- Fixture: configuration around `cexBridgeA`. -/
def cexCfgA2 : Config :=
  { bridge := cexBridgeA, routerUrl := "/a", storeSt := cexStateA }

/-- The dispatch wrapper hands exactly the one action it was given to
`store.dispatch`, throwing subscriber or not. -/
theorem dispatchRouterAction_dispatched (t : Bool) (c : Config) (a : RouterAction) :
    (dispatchRouterAction t c a).dispatched = [a] := by
  cases t <;> rfl

/-- `navigateIfNeeded` never changes the `storeState` field. -/
theorem navigateIfNeeded_storeState (b : Bridge) (u : Url) :
    (navigateIfNeeded b u).bridge.storeState = b.storeState := by
  unfold navigateIfNeeded
  split
  · rfl
  · split
    · rfl
    · split
      · rfl
      · split
        · rfl
        · split <;> rfl

/-- After the store listener runs on an emission `s`, the Bridge's
`storeState` field holds exactly `s`. -/
theorem storeListener_storeState (b : Bridge) (u : Url) (s : StoreState) :
    (storeListener b u s).bridge.storeState = some s := by
  unfold storeListener
  rw [navigateIfNeeded_storeState]

/-- The store listener never raises: its only possible `TypeError`
source is an unassigned `storeState`, which the listener itself just
assigned. -/
theorem storeListener_exn (b : Bridge) (u : Url) (s : StoreState) :
    (storeListener b u s).exn = none := by
  unfold storeListener navigateIfNeeded
  split
  · simp_all
  · split
    · rfl
    · split
      · rfl
      · split
        · rfl
        · split <;> rfl

/-- C1 (counterexample): a pre-activation that *was* caused by the
Bridge's own `navigateByUrl` call can still dispatch a commit.  From
construction over `cexStateB` the Bridge itself requests navigation to
`/b` and sets the "navigation triggered by dispatch" guard; a
host-driven emission then restores a state without the reserved slot;
when the pre-activation hook for the Bridge-requested `/b` navigation
fires, the guard is still set, yet the hook dispatches a
`ROUTER_NAVIGATION` action — so "skip if and only if caused by the
Bridge's own call" fails. -/
theorem claim_C1_counterexample :
    (initConfig "/a" cexStateB).navs = ["/b"] ∧
    cexCfgC1.bridge.navigationTriggeredByDispatch = true ∧
    (step DefaultRouterStateSerializer cexCfgC1 (.hook cexSnapB false)).dispatched.map actionType =
      [ROUTER_NAVIGATION] := by
  refine ⟨rfl, rfl, rfl⟩

/-- C1 (amended): the pre-activation hook skips the commit dispatch if
and only if the "navigation triggered by dispatch" guard is set AND the
reserved `routerReducer` slot is present in the last observed store
state; when the slot is absent it dispatches even if the guard is set. -/
theorem claim_C1 (b : Bridge) (s : StoreState) (h : b.storeState = some s) :
    shouldDispatchRouterNavigation b = .ok false ↔
      s.routerReducer.isSome = true ∧ b.navigationTriggeredByDispatch = true := by
  unfold shouldDispatchRouterNavigation
  rw [h]
  cases hrr : s.routerReducer with
  | none => simp [hrr]
  | some slot => cases hn : b.navigationTriggeredByDispatch <;> simp [hrr, hn]

/-- C1 witness: with the slot present and the guard set, the hook
really does skip. -/
theorem claim_C1_witness :
    shouldDispatchRouterNavigation
      { routerState := none, storeState := some cexStateB, lastRoutesRecognized := none,
        dispatchTriggeredByRouter := false, navigationTriggeredByDispatch := true } =
      .ok false :=
  (claim_C1 _ cexStateB rfl).mpr ⟨rfl, rfl⟩

/-- C2 (counterexample): the action dispatched for a `NavigationError`
event carries the type string `"ROUTE_ERROR"`, not `"ROUTER_ERROR"`
(source line 61: `export const ROUTER_ERROR = 'ROUTE_ERROR';`). -/
theorem claim_C2_counterexample :
    (step DefaultRouterStateSerializer cexCfgA
        (.routerEvent (.error { id := 3, url := "/c", error := "boom" }) false)).dispatched.map actionType =
      ["ROUTE_ERROR"] ∧
    "ROUTE_ERROR" ≠ "ROUTER_ERROR" := by
  exact ⟨rfl, by decide⟩

/-- C2 (amended): the three dispatched actions carry exactly the string
type discriminants `"ROUTER_NAVIGATION"` for commits, `"ROUTER_CANCEL"`
for cancellations, and `"ROUTE_ERROR"` for navigation errors (the
source constant named `ROUTER_ERROR` has string value
`'ROUTE_ERROR'`). -/
theorem claim_C2 :
    (∀ rs ev, actionType (RouterAction.navigation rs ev) = "ROUTER_NAVIGATION") ∧
    (∀ rs ss ev, actionType (RouterAction.cancel rs ss ev) = "ROUTER_CANCEL") ∧
    (∀ rs ss ev, actionType (RouterAction.error rs ss ev) = "ROUTE_ERROR") :=
  ⟨fun _ _ => rfl, fun _ _ _ => rfl, fun _ _ _ => rfl⟩

/-- C5: the dispatch wrapper clears both reentrancy guards whether the
store's dispatch returns normally or a subscriber throws — the
`finally` block runs on both paths. -/
theorem claim_C5 (t : Bool) (c : Config) (a : RouterAction) :
    (dispatchRouterAction t c a).cfg.bridge.dispatchTriggeredByRouter = false ∧
    (dispatchRouterAction t c a).cfg.bridge.navigationTriggeredByDispatch = false := by
  cases t <;> exact ⟨rfl, rfl⟩

/-- C6: a store-state emission delivered while the "dispatch triggered
by router" guard is set never makes the listener call
`router.navigateByUrl`. -/
theorem claim_C6 (b : Bridge) (u : Url) (s : StoreState)
    (h : b.dispatchTriggeredByRouter = true) :
    (storeListener b u s).navs = [] := by
  unfold storeListener navigateIfNeeded
  cases hrr : s.routerReducer with
  | none => simp [hrr]
  | some slot =>
    cases hst : slot.state with
    | none => simp [hrr, hst]
    | some st => simp [hrr, hst, h]

/-- C6 witness: a concrete emission during a router-triggered dispatch
produces no navigation request. -/
theorem claim_C6_witness :
    ({ routerState := none, storeState := none, lastRoutesRecognized := none,
       dispatchTriggeredByRouter := true, navigationTriggeredByDispatch := false } : Bridge).dispatchTriggeredByRouter = true ∧
    (storeListener
      { routerState := none, storeState := none, lastRoutesRecognized := none,
        dispatchTriggeredByRouter := true, navigationTriggeredByDispatch := false }
      "/a" cexStateB).navs = [] :=
  ⟨rfl, claim_C6 _ "/a" cexStateB rfl⟩

/-- C8: on every store-state emission the listener behaves exactly as
section 4.1.2 of the spec states it: it records the state, and issues a
programmatic navigation request (to precisely the slot's url, setting
the "navigation triggered by dispatch" guard) if and only if the
reserved slot and its `state` field are present, the "dispatch
triggered by router" guard is clear, and the router's current url
differs from the slot's url. -/
theorem claim_C8 (b : Bridge) (u : Url) (s : StoreState) :
    storeListener b u s = storeListenerSpec b u s := by
  unfold storeListener storeListenerSpec navigateIfNeeded
  cases hrr : s.routerReducer with
  | none => simp [hrr]
  | some slot =>
    cases hst : slot.state with
    | none => simp [hrr, hst]
    | some st =>
      cases hd : b.dispatchTriggeredByRouter with
      | true => simp [hrr, hst, hd]
      | false =>
        by_cases hu : u = st.url
        · simp [hrr, hst, hd, hu]
        · simp [hrr, hst, hd, hu]

/-- When the Bridge has observed a store state, cached a
`RoutesRecognized` event, and either the reserved slot is absent or the
"navigation triggered by dispatch" guard is clear, the pre-activation
hook dispatches exactly one commit action, whose `payload.routerState`
is the serialized snapshot and whose `payload.event` rebuilds the
cached recognition with a re-serialized state. -/
theorem beforePreactivation_dispatch_eq (f : Serializer) (t : Bool) (c : Config)
    (snap : RouterStateSnapshot) (s : StoreState) (lrr : RoutesRecognized)
    (hs : c.bridge.storeState = some s)
    (hl : c.bridge.lastRoutesRecognized = some lrr)
    (hd : s.routerReducer.isNone = true ∨ c.bridge.navigationTriggeredByDispatch = false) :
    (beforePreactivation f t c snap).dispatched =
      [RouterAction.navigation (f snap)
        { id := lrr.id, url := lrr.url, urlAfterRedirects := lrr.urlAfterRedirects,
          state := f (f snap) }] := by
  obtain ⟨⟨rs0, ss0, lr0, dt0, nt0⟩, u0, st0⟩ := c
  simp only [Bridge.storeState] at hs
  simp only [Bridge.lastRoutesRecognized] at hl
  simp only [Bridge.navigationTriggeredByDispatch] at hd
  subst hs
  subst hl
  unfold beforePreactivation shouldDispatchRouterNavigation
  rcases hd with h | h
  · have : s.routerReducer = none := Option.isNone_iff_eq_none.mp h
    simp only [this]
    simp [dispatchRouterAction_dispatched]
  · subst h
    cases hrr : s.routerReducer <;>
      simp [hrr, dispatchRouterAction_dispatched]

/-- C7: when the reserved `routerReducer` slot is absent from the
observed store state, `shouldDispatchRouterNavigation` answers `true`
whatever the guard flags hold, and the pre-activation hook dispatches
exactly one commit action. -/
theorem claim_C7 :
    (∀ (b : Bridge) (s : StoreState), b.storeState = some s → s.routerReducer = none →
       shouldDispatchRouterNavigation b = .ok true) ∧
    (∀ (f : Serializer) (t : Bool) (c : Config) (snap : RouterStateSnapshot)
       (s : StoreState) (lrr : RoutesRecognized),
       c.bridge.storeState = some s → s.routerReducer = none →
       c.bridge.lastRoutesRecognized = some lrr →
       (beforePreactivation f t c snap).dispatched =
         [RouterAction.navigation (f snap)
           { id := lrr.id, url := lrr.url, urlAfterRedirects := lrr.urlAfterRedirects,
             state := f (f snap) }]) := by
  constructor
  · intro b s h hn
    unfold shouldDispatchRouterNavigation
    rw [h]
    simp [hn]
  · intro f t c snap s lrr hs hn hl
    exact beforePreactivation_dispatch_eq f t c snap s lrr hs hl (Or.inl (by simp [hn]))

/-- C7 witness: the very first navigation (no slot yet) dispatches a
commit even with the "navigation triggered by dispatch" guard set. -/
theorem claim_C7_witness :
    cexStateNoSlot.routerReducer = none ∧
    cexBridgeNoSlot.navigationTriggeredByDispatch = true ∧
    shouldDispatchRouterNavigation cexBridgeNoSlot = .ok true ∧
    (beforePreactivation DefaultRouterStateSerializer false cexCfgNoSlot cexSnapC).dispatched =
      [RouterAction.navigation cexSnapC
        { id := 2, url := "/c", urlAfterRedirects := "/c", state := cexSnapC }] :=
  ⟨rfl, rfl, claim_C7.1 cexBridgeNoSlot cexStateNoSlot rfl rfl,
   claim_C7.2 DefaultRouterStateSerializer false cexCfgNoSlot cexSnapC cexStateNoSlot
     cexRecognized2 rfl rfl rfl⟩

/-- C9: the commit payload applies the serializer once for
`payload.routerState` and twice for `payload.event.state`
(`dispatchRouterNavigation` serializes `this.routerState`, which the
hook already set to the serialized snapshot); the two fields coincide
exactly when the serializer is idempotent on its own output at that
snapshot, as the default (identity) serializer is. -/
theorem claim_C9 :
    (∀ (f : Serializer) (t : Bool) (c : Config) (snap : RouterStateSnapshot)
       (s : StoreState) (lrr : RoutesRecognized),
       c.bridge.storeState = some s →
       c.bridge.lastRoutesRecognized = some lrr →
       (s.routerReducer.isNone = true ∨ c.bridge.navigationTriggeredByDispatch = false) →
       (beforePreactivation f t c snap).dispatched =
         [RouterAction.navigation (f snap)
           { id := lrr.id, url := lrr.url, urlAfterRedirects := lrr.urlAfterRedirects,
             state := f (f snap) }]) ∧
    (∀ (f : Serializer) (snap : RouterStateSnapshot) (ev : NavPayloadEvent),
       navRouterState (RouterAction.navigation (f snap) { ev with state := f (f snap) }) =
         navEventState (RouterAction.navigation (f snap) { ev with state := f (f snap) }) ↔
       f (f snap) = f snap) ∧
    (∀ snap, DefaultRouterStateSerializer (DefaultRouterStateSerializer snap) =
       DefaultRouterStateSerializer snap) := by
  refine ⟨beforePreactivation_dispatch_eq, ?_, fun _ => rfl⟩
  intro f snap ev
  simp [navRouterState, navEventState, eq_comm]

/-- C9 witness: with a non-idempotent serializer the two fields really
differ — one bump for `routerState`, two for `event.state`. -/
theorem claim_C9_witness :
    cexCfgA2.bridge.storeState = some cexStateA ∧
    cexCfgA2.bridge.navigationTriggeredByDispatch = false ∧
    (beforePreactivation bumpSerializer false cexCfgA2 cexSnapC).dispatched =
      [RouterAction.navigation { url := "/c", tree := 1 }
        { id := 2, url := "/c", urlAfterRedirects := "/c",
          state := { url := "/c", tree := 2 } }] :=
  ⟨rfl, rfl, claim_C9.1 bumpSerializer false cexCfgA2 cexSnapC cexStateA cexRecognized2
    rfl rfl (Or.inr rfl)⟩

/-- C3 (counterexample): spec Scenario C run against the code.  The
engine recognizes id 2 targeting `/c` and a guard then cancels; the
hook fires before guards, so the Bridge dispatches BOTH a
`ROUTER_NAVIGATION` and a `ROUTER_CANCEL` for id 2 — two of the three
action kinds for one navigation id, and in particular a commit for the
cancelled id. -/
theorem claim_C3_counterexample :
    ((run DefaultRouterStateSerializer cexCfgA cexTraceCancel).dispatched.countP (isCommitFor 2)) = 1 ∧
    ((run DefaultRouterStateSerializer cexCfgA cexTraceCancel).dispatched.countP (isTerminalFor 2)) = 1 ∧
    (run DefaultRouterStateSerializer cexCfgA cexTraceCancel).dispatched.map actionType =
      [ROUTER_NAVIGATION, ROUTER_CANCEL] := by
  refine ⟨rfl, rfl, rfl⟩

/-- The pre-activation hook never dispatches terminal (cancel/error)
actions. -/
theorem beforePreactivation_terminal (f : Serializer) (t : Bool) (c : Config)
    (snap : RouterStateSnapshot) (n : Nat) :
    ((beforePreactivation f t c snap).dispatched.countP (isTerminalFor n)) = 0 := by
  obtain ⟨⟨rs0, ss0, lr0, dt0, nt0⟩, u0, st0⟩ := c
  unfold beforePreactivation shouldDispatchRouterNavigation
  cases ss0 with
  | none => rfl
  | some s0 =>
    cases hrr : s0.routerReducer with
    | none =>
      cases lr0 with
      | none => simp [hrr]
      | some lrr =>
        simp [hrr, dispatchRouterAction_dispatched, isTerminalFor, List.countP_cons]
    | some slot =>
      cases nt0 with
      | true => simp [hrr]
      | false =>
        cases lr0 with
        | none => simp [hrr]
        | some lrr =>
          simp [hrr, dispatchRouterAction_dispatched, isTerminalFor, List.countP_cons]

/-- Each stimulus yields exactly as many terminal actions as it is
itself a terminal lifecycle event: one for a cancel/error event with
the matching id, none otherwise. -/
theorem step_terminal_count (f : Serializer) (n : Nat) (c : Config) (e : EnvStep) :
    ((step f c e).dispatched.countP (isTerminalFor n)) =
      (if envIsTerminalFor n e then 1 else 0) := by
  cases e with
  | storeEmit s => rfl
  | urlUpdate u => rfl
  | hook snap t =>
    simpa [step, envIsTerminalFor] using beforePreactivation_terminal f t c snap n
  | routerEvent ev t =>
    cases ev with
    | recognized r => rfl
    | other => rfl
    | cancel e2 =>
      show ((dispatchRouterAction t c _).dispatched.countP (isTerminalFor n)) = _
      rw [dispatchRouterAction_dispatched]
      simp [isTerminalFor, envIsTerminalFor, List.countP_cons]
    | error e2 =>
      show ((dispatchRouterAction t c _).dispatched.countP (isTerminalFor n)) = _
      rw [dispatchRouterAction_dispatched]
      simp [isTerminalFor, envIsTerminalFor, List.countP_cons]

/-- Along any environment trace, the Bridge dispatches at most as many
terminal actions for id `n` as the trace contains terminal lifecycle
events with id `n`. -/
theorem run_terminal_le (f : Serializer) (n : Nat) :
    ∀ (steps : List EnvStep) (c : Config),
      ((run f c steps).dispatched.countP (isTerminalFor n)) ≤
        steps.countP (envIsTerminalFor n) := by
  intro steps
  induction steps with
  | nil => intro c; simp [run]
  | cons st rest ih =>
    intro c
    rw [run, List.countP_cons]
    cases hx : (step f c st).exn with
    | some e =>
      simp only [hx]
      rw [step_terminal_count]
      exact Nat.le_add_left _ _
    | none =>
      simp only [hx]
      rw [List.countP_append, step_terminal_count]
      have h2 := ih (step f c st).cfg
      generalize (if envIsTerminalFor n st then 1 else 0) = k at *
      omega

/-- C3 (amended): along any trace in which the engine emits at most one
terminal lifecycle event for navigation id `n` (the engine's ordering
invariant), the Bridge dispatches at most one terminal action
(`ROUTER_CANCEL`/`ROUTE_ERROR`) for id `n`; a commit for the same id
may additionally be dispatched at pre-activation, before the terminal
event. -/
theorem claim_C3 (f : Serializer) (c : Config) (steps : List EnvStep) (n : Nat)
    (h : steps.countP (envIsTerminalFor n) ≤ 1) :
    ((run f c steps).dispatched.countP (isTerminalFor n)) ≤ 1 :=
  le_trans (run_terminal_le f n steps c) h

/-- C3 witness: Scenario C's trace has one terminal event for id 2, so
at most one terminal action is dispatched for id 2. -/
theorem claim_C3_witness :
    cexTraceCancel.countP (envIsTerminalFor 2) ≤ 1 ∧
    ((run DefaultRouterStateSerializer cexCfgA cexTraceCancel).dispatched.countP (isTerminalFor 2)) ≤ 1 :=
  ⟨by decide, claim_C3 DefaultRouterStateSerializer cexCfgA cexTraceCancel 2 (by decide)⟩

/-- C4: evaluating the guard-cancellation scenario.  The store state
carried by the dispatched `ROUTER_CANCEL` is `cexStateAfterCommit` —
the state produced during the attempt by the Bridge's own
`ROUTER_NAVIGATION` dispatch (slot already rewritten to `/c`, id 2) —
and not the pre-attempt store state `cexStateA`, contradicting both the
claim and the module's own doc comment ("Both ROUTER_CANCEL and
ROUTER_ERROR contain the store state before the navigation"). -/
theorem claim_C4 :
    (run DefaultRouterStateSerializer cexCfgA cexTraceCancel).dispatched =
      [RouterAction.navigation cexSnapC
        { id := 2, url := "/c", urlAfterRedirects := "/c", state := cexSnapC },
       RouterAction.cancel (some cexSnapC) (some cexStateAfterCommit)
        { id := 2, url := "/c", reason := "guard" }] ∧
    cexStateAfterCommit ≠ cexStateA := by
  exact ⟨rfl, by decide⟩

/-- The dispatch wrapper leaves the Bridge's `storeState` assigned
whenever it was assigned before (and assigns it on the normal path). -/
theorem dispatchRouterAction_storeState_isSome (t : Bool) (c : Config) (a : RouterAction)
    (h : (c.bridge.storeState).isSome = true) :
    (((dispatchRouterAction t c a).cfg.bridge.storeState)).isSome = true := by
  cases t with
  | true => exact h
  | false =>
    show (((storeListener _ c.routerUrl (storeReduce c.storeSt a)).bridge.storeState)).isSome = true
    rw [storeListener_storeState]
    rfl

/-- The pre-activation hook leaves the Bridge's `storeState` assigned
whenever it was assigned before. -/
theorem beforePreactivation_storeState_isSome (f : Serializer) (t : Bool) (c : Config)
    (snap : RouterStateSnapshot) (h : (c.bridge.storeState).isSome = true) :
    (((beforePreactivation f t c snap).cfg.bridge.storeState)).isSome = true := by
  obtain ⟨⟨rs0, ss0, lr0, dt0, nt0⟩, u0, st0⟩ := c
  unfold beforePreactivation shouldDispatchRouterNavigation
  cases ss0 with
  | none => exact h
  | some s0 =>
    obtain ⟨rr0, rest0⟩ := s0
    cases rr0 with
    | none =>
      cases lr0 with
      | none => rfl
      | some lrr => exact dispatchRouterAction_storeState_isSome t _ _ rfl
    | some slot =>
      cases nt0 with
      | true => rfl
      | false =>
        cases lr0 with
        | none => rfl
        | some lrr => exact dispatchRouterAction_storeState_isSome t _ _ rfl

/-- Every stimulus leaves the Bridge's `storeState` assigned whenever
it was assigned before. -/
theorem step_storeState_isSome (f : Serializer) (c : Config) (e : EnvStep)
    (h : (c.bridge.storeState).isSome = true) :
    (((step f c e).cfg.bridge.storeState)).isSome = true := by
  cases e with
  | storeEmit s =>
    show (((storeListener c.bridge c.routerUrl s).bridge.storeState)).isSome = true
    rw [storeListener_storeState]
    rfl
  | urlUpdate u => exact h
  | hook snap t => exact beforePreactivation_storeState_isSome f t c snap h
  | routerEvent ev t =>
    cases ev with
    | recognized r => exact h
    | other => exact h
    | cancel e2 => exact dispatchRouterAction_storeState_isSome t c _ h
    | error e2 => exact dispatchRouterAction_storeState_isSome t c _ h

/-- Along any trace, once the Bridge's `storeState` is assigned it
stays assigned. -/
theorem run_storeState_isSome (f : Serializer) :
    ∀ (steps : List EnvStep) (c : Config), (c.bridge.storeState).isSome = true →
      (((run f c steps).cfg.bridge.storeState)).isSome = true := by
  intro steps
  induction steps with
  | nil => intro c h; exact h
  | cons st rest ih =>
    intro c h
    rw [run]
    cases hx : (step f c st).exn with
    | some e => simp only [hx]; exact step_storeState_isSome f c st h
    | none => simp only [hx]; exact ih _ (step_storeState_isSome f c st h)

/-- C10: `shouldDispatchRouterNavigation` reads
`this.storeState['routerReducer']` without a definedness check: with
`storeState` still unassigned it raises a `TypeError`, and with any
observed store state it returns normally.  The constructor's store
subscription synchronously delivers the current state, so from
construction on — along every environment trace — `storeState` stays
assigned and the read is safe. -/
theorem claim_C10 :
    (∀ b : Bridge, b.storeState = none →
       shouldDispatchRouterNavigation b = .error .typeError) ∧
    (∀ (b : Bridge) (s : StoreState), b.storeState = some s →
       shouldDispatchRouterNavigation b =
         .ok (s.routerReducer.isNone || !b.navigationTriggeredByDispatch)) ∧
    (∀ (u : Url) (s0 : StoreState), (initConfig u s0).cfg.bridge.storeState = some s0) ∧
    (∀ (f : Serializer) (u : Url) (s0 : StoreState) (steps : List EnvStep),
       (((run f (initConfig u s0).cfg steps).cfg.bridge.storeState)).isSome = true) := by
  refine ⟨?_, ?_, ?_, ?_⟩
  · intro b h
    unfold shouldDispatchRouterNavigation
    rw [h]
  · intro b s h
    unfold shouldDispatchRouterNavigation
    rw [h]
    cases hrr : s.routerReducer with
    | none => simp [hrr]
    | some slot => simp [hrr]
  · intro u s0
    show (storeListener initialBridge u s0).bridge.storeState = some s0
    exact storeListener_storeState initialBridge u s0
  · intro f u s0 steps
    apply run_storeState_isSome
    show ((storeListener initialBridge u s0).bridge.storeState).isSome = true
    rw [storeListener_storeState]
    rfl

/-- C10 witness: before the first emission the read throws; after
construction and a full scenario trace, `storeState` is still
assigned. -/
theorem claim_C10_witness :
    initialBridge.storeState = none ∧
    shouldDispatchRouterNavigation initialBridge = .error .typeError ∧
    shouldDispatchRouterNavigation cexBridgeA = .ok true ∧
    (((run DefaultRouterStateSerializer (initConfig "/a" cexStateA).cfg
        cexTraceCancel).cfg.bridge.storeState)).isSome = true :=
  ⟨rfl, claim_C10.1 initialBridge rfl,
   claim_C10.2.1 cexBridgeA cexStateA rfl,
   claim_C10.2.2.2 DefaultRouterStateSerializer "/a" cexStateA cexTraceCancel⟩
